import Mathlib

/-!
Verification of the walter-v2 orchestration layer: the `PsychologyRAG` index
manager and query service (`walter_v2.py`) and the chat input handler of the
Streamlit UI (`app.py`), shallowly embedded as pure Lean functions over an
explicit filesystem slice and an explicit external-collaborator interface.
-/

namespace Walter

/-- A document record produced by reading the document directory
(`SimpleDirectoryReader(...).load_data()`): raw text plus source metadata. -/
structure Document where
  text : String
  metadata : Option (List (String × String))
  deriving Repr, DecidableEq

/-- The vector index (`VectorStoreIndex.from_documents(documents)`): for this
orchestration layer it is an opaque structure determined by the documents it
was built from. -/
structure Index where
  docs : List Document
  deriving Repr, DecidableEq

/-- Python exceptions raised by `walter_v2.py`, identified by exception class
and message. -/
inductive PyError where
  | fileNotFoundError (msg : String)
  | valueError (msg : String)
  deriving Repr, DecidableEq

/-- The slice of the filesystem at the two configured paths of one
`PsychologyRAG` instance: `persisted` is the index snapshot at `persist_dir`
(`none` means `os.path.exists(persist_dir)` is false), `dataDir` is the
content of the document directory `data_dir` (`none` means the directory does
not exist; `some []` means it exists but `os.listdir` returns no files). -/
structure FS where
  persisted : Option Index
  dataDir : Option (List Document)
  deriving Repr, DecidableEq

/-- Filesystem accesses performed by the index manager, recorded as a trace. -/
inductive FSEvent where
  | statPersistDir
  | loadIndexFromStorage
  | statDataDir
  | listDataDir
  | readDocuments
  | persistIndex
  | removePersistDir
  deriving Repr, DecidableEq

/-- Whether an event touches the configured document directory. -/
def FSEvent.touchesDataDir : FSEvent → Bool
  | .statDataDir => true
  | .listDataDir => true
  | .readDocuments => true
  | _ => false

/-- The state of a `PsychologyRAG` object: the two configured paths from
`__init__` and the in-memory `self.index`. -/
structure PsychologyRAG where
  persist_dir : String
  data_dir : String
  index : Option Index
  deriving Repr, DecidableEq

/-- `PsychologyRAG.__init__(persist_dir, data_dir)`: stores the paths and sets
`self.index = None`. -/
def PsychologyRAG.init (persist_dir data_dir : String) : PsychologyRAG :=
  ⟨persist_dir, data_dir, none⟩

/-- The ASCII single-quote character, used in the Python error messages. -/
def sq : String := String.singleton (Char.ofNat 39)

/-- Message of the `FileNotFoundError` raised when the data directory is
missing: `f"Data directory '{self.data_dir}' not found!"`. -/
def dataDirNotFoundMsg (rag : PsychologyRAG) : String :=
  "Data directory " ++ sq ++ rag.data_dir ++ sq ++ " not found!"

/-- Message of the `ValueError` raised when the data directory is empty:
`f"No files found in '{self.data_dir}'!"`. -/
def noFilesMsg (rag : PsychologyRAG) : String :=
  "No files found in " ++ sq ++ rag.data_dir ++ sq ++ "!"

/-- Message of the `ValueError` raised by `query` when no index is loaded. -/
def indexNotLoadedMsg : String :=
  "Index not loaded! Call load_or_create_index() first."

/-- Modelled from the spec: the error taxonomy of spec section 7 is not code
under `src/`; `ConfigurationError` is the class covering the missing/empty
document-directory failures of the first build, which in the code are the
`FileNotFoundError` and the no-files `ValueError` raised by
`load_or_create_index`. -/
def isConfigurationError (rag : PsychologyRAG) : PyError → Bool
  | .fileNotFoundError m => m = dataDirNotFoundMsg rag
  | .valueError m => m = noFilesMsg rag

/-- Modelled from the spec: `StateError` of spec section 7 is the failure of a
query attempted before any index is loaded, which in the code is the
`ValueError` raised at the top of `query`. -/
def isStateError : PyError → Bool
  | .valueError m => m = indexNotLoadedMsg
  | .fileNotFoundError _ => false

/-- Result of `load_or_create_index`: returned value or raised exception, the
post-state of the object, the post-state of the filesystem slice, and the
trace of filesystem accesses. -/
structure LoadResult where
  result : Except PyError Index
  rag : PsychologyRAG
  fs : FS
  events : List FSEvent

/-- `PsychologyRAG.load_or_create_index`: if `os.path.exists(self.persist_dir)`
then load the persisted index, set `self.index` and return it; otherwise
require the data directory to exist (`FileNotFoundError`) and to list at least
one file (`ValueError`), then read the documents, build a new index, set
`self.index`, persist the index, and return it. -/
def PsychologyRAG.load_or_create_index (rag : PsychologyRAG) (fs : FS) : LoadResult :=
  match fs.persisted with
  | some stored =>
      { result := .ok stored
        rag := { rag with index := some stored }
        fs := fs
        events := [.statPersistDir, .loadIndexFromStorage] }
  | none =>
      match fs.dataDir with
      | none =>
          { result := .error (.fileNotFoundError (dataDirNotFoundMsg rag))
            rag := rag
            fs := fs
            events := [.statPersistDir, .statDataDir] }
      | some files =>
          if files.isEmpty then
            { result := .error (.valueError (noFilesMsg rag))
              rag := rag
              fs := fs
              events := [.statPersistDir, .statDataDir, .listDataDir] }
          else
            let idx : Index := ⟨files⟩
            { result := .ok idx
              rag := { rag with index := some idx }
              fs := { fs with persisted := some idx }
              events := [.statPersistDir, .statDataDir, .listDataDir,
                         .readDocuments, .persistIndex] }

/-- Result of `rebuild_index`: it returns `None` on success, so the value part
is `Unit`. -/
structure RebuildResult where
  result : Except PyError Unit
  rag : PsychologyRAG
  fs : FS
  events : List FSEvent

/-- `PsychologyRAG.rebuild_index`: if `os.path.exists(self.persist_dir)` then
`shutil.rmtree` it; set `self.index = None`; then call
`self.load_or_create_index()` (whose exception, if any, propagates). -/
def PsychologyRAG.rebuild_index (rag : PsychologyRAG) (fs : FS) : RebuildResult :=
  let step1 : FS × List FSEvent :=
    match fs.persisted with
    | some _ => ({ fs with persisted := none }, [.statPersistDir, .removePersistDir])
    | none => (fs, [.statPersistDir])
  let rag1 : PsychologyRAG := { rag with index := none }
  let r := rag1.load_or_create_index step1.1
  { result := r.result.map (fun _ => ())
    rag := r.rag
    fs := r.fs
    events := step1.2 ++ r.events }

/-- The composite operation named by the spec sentence for `rebuild()`:
discard the persisted state and the in-memory index, then perform exactly
`loadOrCreate()`. Stated from the spec's words, to be compared with
`PsychologyRAG.rebuild_index`. -/
def discardThenLoadOrCreate (rag : PsychologyRAG) (fs : FS) : LoadResult :=
  PsychologyRAG.load_or_create_index { rag with index := none } { fs with persisted := none }

/-- `PsychologyRAG.get_index_stats`: `{"loaded": False}` when no index is
loaded, otherwise loaded flag, document count and the configured paths. -/
def PsychologyRAG.get_index_stats (rag : PsychologyRAG) :
    Bool × Option (Nat × String × String) :=
  match rag.index with
  | none => (false, none)
  | some idx => (true, some (idx.docs.length, rag.persist_dir, rag.data_dir))

/-- The LLM configuration built by `query`:
`OpenAI(model=model_name, temperature=temperature)`. The temperature is a
Python float on which this codebase performs no arithmetic, so it is embedded
as a rational. -/
structure LLMConfig where
  model : String
  temperature : Rat
  deriving Repr, DecidableEq

/-- The query-engine configuration built by `query`:
`self.index.as_query_engine(llm=llm, similarity_top_k=top_k, streaming=streaming)`.
`top_k` is a Python int, embedded as an integer. -/
structure QueryEngineConfig where
  llm : LLMConfig
  similarity_top_k : Int
  streaming : Bool
  deriving Repr, DecidableEq

/-- A retrieved source node as exposed on the response object: similarity
score, chunk text and optional metadata mapping. Scores are floats on which
this codebase performs no arithmetic, embedded as rationals. -/
structure SourceNode where
  score : Rat
  text : String
  metadata : Option (List (String × String))
  deriving Repr, DecidableEq

/-- The response object returned by `query_engine.query(question)`: `answer`
is `str(response)`, `response_gen` is the fragment stream when the object has
a `response_gen` attribute (`none` embeds `hasattr(response, 'response_gen')`
being false), `source_nodes` is `response.source_nodes`. -/
structure Response where
  answer : String
  response_gen : Option (List String)
  source_nodes : List SourceNode
  deriving Repr, DecidableEq

/-- The dictionary returned by `PsychologyRAG.query`:
`{"response": response, "streaming": streaming and hasattr(response, 'response_gen')}`. -/
structure QueryResult where
  response : Response
  streaming : Bool
  deriving Repr, DecidableEq

/-- The external collaborator executing a retrieval-augmented completion: the
behaviour of `query_engine.query(question)` for an engine configured over a
given index. It may raise (external service failures propagate as exceptions).
Left as a parameter so that theorems about the orchestration code hold for
every collaborator behaviour. -/
def Engine : Type := Index → QueryEngineConfig → String → Except PyError Response

/-- `PsychologyRAG.query(question, model_name, temperature, top_k, streaming)`:
raise `ValueError` if `self.index` is falsy; otherwise build the LLM and
query-engine configuration, execute the query, and package the result.
Besides the Python return value it returns the list of engine invocations
(each with the configuration it was given), so that call capture can be
stated. -/
def PsychologyRAG.query (rag : PsychologyRAG) (engine : Engine)
    (question model_name : String) (temperature : Rat) (top_k : Int)
    (streaming : Bool) : Except PyError QueryResult × List QueryEngineConfig :=
  match rag.index with
  | none => (.error (.valueError indexNotLoadedMsg), [])
  | some idx =>
      let llm : LLMConfig := { model := model_name, temperature := temperature }
      let cfg : QueryEngineConfig :=
        { llm := llm, similarity_top_k := top_k, streaming := streaming }
      match engine idx cfg question with
      | .error e => (.error e, [cfg])
      | .ok response =>
          (.ok { response := response
                 streaming := streaming && response.response_gen.isSome }, [cfg])

/-- Modelled from the spec: the retrieval/ranking algorithm lives in the
external library (out of scope per spec section 1); a chunk's relevance to
the question is embedded as a concrete similarity score (shared-word count). -/
def relevanceScore (question text : String) : Rat :=
  (((question.splitOn " ").filter fun w => (text.splitOn " ").contains w).length : Rat)

/-- Insert a node into a list kept in descending score order. -/
def insertByScore (n : SourceNode) : List SourceNode → List SourceNode
  | [] => [n]
  | m :: ms => if m.score ≤ n.score then n :: m :: ms else m :: insertByScore n ms

/-- Sort source nodes by descending score. -/
def sortByScore : List SourceNode → List SourceNode
  | [] => []
  | n :: ns => insertByScore n (sortByScore ns)

/-- Modelled from the spec: the external retriever is "bounded to `topK`
matches" (spec section 4.2; glossary: "Top-k: maximum number of chunks
retrieved per query") — it ranks the index's chunks by similarity to the
question and returns at most `similarity_top_k` of them. -/
def retrieveNodes (idx : Index) (question : String) (top_k : Int) : List SourceNode :=
  (sortByScore (idx.docs.map fun d =>
    { score := relevanceScore question d.text, text := d.text,
      metadata := d.metadata })).take top_k.toNat

/-- Modelled from the spec: the external LLM completion (out of scope per spec
section 1), embedded as a concrete deterministic text built from the
configured model, the question and the retrieved context. -/
def generateAnswer (llm : LLMConfig) (question : String)
    (nodes : List SourceNode) : String :=
  "[" ++ llm.model ++ "] " ++ question ++ " => " ++
    String.intercalate " " (nodes.map fun n => n.text)

/-- Modelled from the spec: streaming delivery produces the answer "as an
ordered sequence of fragments; the caller concatenates them in order to
reconstruct the full answer" (spec section 4.2) — embedded as the sequence of
one-character fragments of the answer. -/
def fragmentize (s : String) : List String :=
  s.data.map fun c => String.singleton c

/-- Modelled from the spec: a collaborator implementing the Query Service's
external side — retrieval bounded to `similarity_top_k`, completion with the
configured LLM, streaming fragments exactly when streaming was requested. -/
def externalQueryEngine : Engine := fun idx cfg question =>
  let nodes := retrieveNodes idx question cfg.similarity_top_k
  let answer := generateAnswer cfg.llm question nodes
  .ok { answer := answer
        response_gen := if cfg.streaming then some (fragmentize answer) else none
        source_nodes := nodes }

/-- A chat turn of `st.session_state.chat_history`: role, text content, and
for assistant turns the attached source records. -/
structure ChatTurn where
  role : String
  content : String
  sources : Option (List SourceNode)
  deriving Repr, DecidableEq

/-- The incremental accumulation of the chat handler:
`full_response = ""` then `full_response += text` per fragment. -/
def concatFragments (frags : List String) : String :=
  frags.foldl (· ++ ·) ""

/-- The sources-collection loop of the chat handler: `sources = []`, and if
the response has a truthy `source_nodes` attribute, one record per node with
its score, text and metadata. -/
def collectSources (resp : Response) : List SourceNode :=
  if resp.source_nodes.isEmpty then []
  else resp.source_nodes.map fun n =>
    { score := n.score, text := n.text, metadata := n.metadata }

/-- The chat input handler of `app.py`: append the user turn, call
`rag_model.query(question=prompt, ..., streaming=True)`; on success build
`full_response` from the fragment stream (or `str(response)`), collect the
sources, and append the assistant turn; on an exception render the error and
append nothing further. Returns the new history and the surfaced error. -/
def handleChatInput (rag : PsychologyRAG) (engine : Engine)
    (history : List ChatTurn) (prompt model_name : String) (temperature : Rat)
    (top_k : Int) : List ChatTurn × Option PyError :=
  let history1 := history ++ [{ role := "user", content := prompt, sources := none }]
  match (rag.query engine prompt model_name temperature top_k true).1 with
  | .error e => (history1, some e)
  | .ok result =>
      let full_response :=
        match result.streaming, result.response.response_gen with
        | true, some frags => concatFragments frags
        | _, _ => result.response.answer
      let sources := collectSources result.response
      (history1 ++ [{ role := "assistant", content := full_response,
                      sources := some sources }], none)

/-- Whether a call of the chat handler with this prompt would succeed: the
handler's only failure source is the query call, which does not read the
history. -/
def queryOk (rag : PsychologyRAG) (engine : Engine) (prompt model_name : String)
    (temperature : Rat) (top_k : Int) : Bool :=
  match (rag.query engine prompt model_name temperature top_k true).1 with
  | .ok _ => true
  | .error _ => false

/-- A session: fold the chat handler over a list of submitted prompts,
starting from a given history. -/
def runSession (rag : PsychologyRAG) (engine : Engine) (model_name : String)
    (temperature : Rat) (top_k : Int) :
    List String → List ChatTurn → List ChatTurn
  | [], history => history
  | p :: ps, history =>
      runSession rag engine model_name temperature top_k ps
        (handleChatInput rag engine history p model_name temperature top_k).1

/-- A sample document. -/
def docA : Document := { text := "alpha beta", metadata := none }

/-- Another sample document. -/
def docB : Document := { text := "gamma delta", metadata := none }

/-- A sample loaded index. -/
def idxEx : Index := { docs := [docA, docB] }

/-- A sample `PsychologyRAG` whose index is loaded. -/
def ragEx : PsychologyRAG :=
  { persist_dir := "./storage", data_dir := "./psych_pdfs", index := some idxEx }

/-- A sample collaborator that supports streaming: it answers "Hello" as the
fragments "Hel", "lo". -/
def stubStreamEngine : Engine := fun _ _ _ =>
  .ok { answer := "Hello", response_gen := some ["Hel", "lo"], source_nodes := [] }

/-- The response produced by `stubStreamEngine`. -/
def respStub : Response :=
  { answer := "Hello", response_gen := some ["Hel", "lo"], source_nodes := [] }

/-- A default query result, used only to totalise `getOk`. -/
def defaultQueryResult : QueryResult :=
  { response := { answer := "", response_gen := none, source_nodes := [] }
    streaming := false }

/-- Extract the success value of a query outcome. -/
def getOk : Except PyError QueryResult → QueryResult
  | .ok r => r
  | .error _ => defaultQueryResult

/-- The concrete result of a sample query against `ragEx` with `top_k = 1`. -/
def resEx : QueryResult :=
  getOk (ragEx.query externalQueryEngine "alpha" "gpt-4" 0 1 false).1

/-- Whether a Python call raised an exception. -/
def raisedException {α : Type} : Except PyError α → Bool
  | .error _ => true
  | .ok _ => false

/-- Helper: the retriever model returns at most `top_k.toNat` nodes. -/
theorem retrieveNodes_length_le (idx : Index) (question : String) (top_k : Int) :
    (retrieveNodes idx question top_k).length ≤ top_k.toNat := by
  unfold retrieveNodes
  exact List.length_take_le _ _

/-- C1: with no persisted index and a missing or empty document directory,
`load_or_create_index` fails with a `ConfigurationError` (the
`FileNotFoundError` / no-files `ValueError` of the first build), the object
is unchanged, and the in-memory index remains unset. -/
theorem loadOrCreate_config_error (rag : PsychologyRAG) (fs : FS)
    (hidx : rag.index = none) (hp : fs.persisted = none)
    (hd : fs.dataDir = none ∨ fs.dataDir = some []) :
    (∃ e, (rag.load_or_create_index fs).result = .error e ∧
      isConfigurationError rag e = true) ∧
    (rag.load_or_create_index fs).rag = rag ∧
    (rag.load_or_create_index fs).rag.index = none := by
  rcases hd with hd | hd
  · refine ⟨⟨.fileNotFoundError (dataDirNotFoundMsg rag), ?_, ?_⟩, ?_, ?_⟩ <;>
      simp [PsychologyRAG.load_or_create_index, hp, hd, isConfigurationError, hidx]
  · refine ⟨⟨.valueError (noFilesMsg rag), ?_, ?_⟩, ?_, ?_⟩ <;>
      simp [PsychologyRAG.load_or_create_index, hp, hd, isConfigurationError, hidx]

/-- Witness for C1 at a concrete empty state. -/
theorem loadOrCreate_config_error_witness :
    (∃ e, ((PsychologyRAG.init "./storage" "./psych_pdfs").load_or_create_index
        { persisted := none, dataDir := none }).result = .error e ∧
      isConfigurationError (PsychologyRAG.init "./storage" "./psych_pdfs") e = true) ∧
    ((PsychologyRAG.init "./storage" "./psych_pdfs").load_or_create_index
        { persisted := none, dataDir := none }).rag =
      PsychologyRAG.init "./storage" "./psych_pdfs" ∧
    ((PsychologyRAG.init "./storage" "./psych_pdfs").load_or_create_index
        { persisted := none, dataDir := none }).rag.index = none :=
  loadOrCreate_config_error _ _ rfl rfl (Or.inl rfl)

/-- C2: a query on a manager whose index is unset raises the index-not-loaded
`ValueError` (the spec's `StateError`); the engine invocation list is empty,
so no query is executed against the generator or retriever. -/
theorem query_state_error (rag : PsychologyRAG) (engine : Engine)
    (question model_name : String) (temperature : Rat) (top_k : Int)
    (streaming : Bool) (hidx : rag.index = none) :
    rag.query engine question model_name temperature top_k streaming =
      (.error (.valueError indexNotLoadedMsg), []) ∧
    isStateError (.valueError indexNotLoadedMsg) = true := by
  constructor
  · simp [PsychologyRAG.query, hidx]
  · simp [isStateError]

/-- Witness for C2 at a freshly constructed manager. -/
theorem query_state_error_witness :
    (PsychologyRAG.init "./storage" "./psych_pdfs").query externalQueryEngine
        "q" "gpt-4" 0 3 true =
      (.error (.valueError indexNotLoadedMsg), []) ∧
    isStateError (.valueError indexNotLoadedMsg) = true :=
  query_state_error _ externalQueryEngine "q" "gpt-4" 0 3 true rfl

/-- C5: with persisted index state present, `load_or_create_index` returns
that index, the filesystem is unchanged, and no event of the trace touches
the document directory (which is unconstrained, hence need not exist). -/
theorem loadOrCreate_persisted (rag : PsychologyRAG) (fs : FS) (idx : Index)
    (hp : fs.persisted = some idx) :
    (rag.load_or_create_index fs).result = .ok idx ∧
    (rag.load_or_create_index fs).rag = { rag with index := some idx } ∧
    (rag.load_or_create_index fs).fs = fs ∧
    ∀ e ∈ (rag.load_or_create_index fs).events, e.touchesDataDir = false := by
  refine ⟨?_, ?_, ?_, ?_⟩ <;>
    simp [PsychologyRAG.load_or_create_index, hp, FSEvent.touchesDataDir]

/-- Witness for C5 at a state with a persisted index and no data directory. -/
theorem loadOrCreate_persisted_witness :
    (ragEx.load_or_create_index { persisted := some idxEx, dataDir := none }).result =
      .ok idxEx ∧
    (ragEx.load_or_create_index { persisted := some idxEx, dataDir := none }).rag =
      { ragEx with index := some idxEx } ∧
    (ragEx.load_or_create_index { persisted := some idxEx, dataDir := none }).fs =
      { persisted := some idxEx, dataDir := none } ∧
    ∀ e ∈ (ragEx.load_or_create_index
        { persisted := some idxEx, dataDir := none }).events,
      e.touchesDataDir = false :=
  loadOrCreate_persisted ragEx _ idxEx rfl

/-- C4: `rebuild_index` produces exactly the post-state of the composite
"discard persisted state, unset the index, then `loadOrCreate()`": same
outcome (up to `rebuild_index` returning `None`), same object state, same
filesystem state. -/
theorem rebuild_is_discard_then_load (rag : PsychologyRAG) (fs : FS) :
    (rag.rebuild_index fs).result =
      (discardThenLoadOrCreate rag fs).result.map (fun _ => ()) ∧
    (rag.rebuild_index fs).rag = (discardThenLoadOrCreate rag fs).rag ∧
    (rag.rebuild_index fs).fs = (discardThenLoadOrCreate rag fs).fs := by
  obtain ⟨p, d⟩ := fs
  cases p <;>
    refine ⟨?_, ?_, ?_⟩ <;>
    simp [PsychologyRAG.rebuild_index, discardThenLoadOrCreate]

/-- C9: rebuild is not atomic: from a state with a loaded index whose document
directory is missing or empty, `rebuild_index` fails, the persisted state is
gone, and the in-memory index is unset — the previous index is not retained. -/
theorem rebuild_failure_drops_index (rag : PsychologyRAG) (fs : FS) (idx : Index)
    (hidx : rag.index = some idx)
    (hd : fs.dataDir = none ∨ fs.dataDir = some []) :
    raisedException (rag.rebuild_index fs).result = true ∧
    (rag.rebuild_index fs).fs.persisted = none ∧
    (rag.rebuild_index fs).rag.index = none := by
  obtain ⟨p, d⟩ := fs
  rcases hd with hd | hd <;> subst hd <;> cases p <;>
    refine ⟨?_, ?_, ?_⟩ <;>
    simp [PsychologyRAG.rebuild_index, PsychologyRAG.load_or_create_index,
      raisedException, Except.map]

/-- Witness for C9: loaded index, persisted state present, empty data
directory. -/
theorem rebuild_failure_drops_index_witness :
    raisedException (ragEx.rebuild_index
        { persisted := some idxEx, dataDir := some [] }).result = true ∧
    (ragEx.rebuild_index
        { persisted := some idxEx, dataDir := some [] }).fs.persisted = none ∧
    (ragEx.rebuild_index
        { persisted := some idxEx, dataDir := some [] }).rag.index = none :=
  rebuild_failure_drops_index ragEx _ idxEx rfl (Or.inr rfl)

/-- Helper: a successful submission appends exactly two turns to the history. -/
theorem handleChatInput_ok_length (rag : PsychologyRAG) (engine : Engine)
    (history : List ChatTurn) (prompt model_name : String) (temperature : Rat)
    (top_k : Int)
    (h : queryOk rag engine prompt model_name temperature top_k = true) :
    (handleChatInput rag engine history prompt model_name temperature top_k).1.length =
      history.length + 2 := by
  unfold queryOk at h
  unfold handleChatInput
  cases hq : (rag.query engine prompt model_name temperature top_k true).1 with
  | error e => rw [hq] at h; simp at h
  | ok r => simp [hq]

/-- Helper: starting from any history, a run of all-successful submissions
grows the history by two turns per prompt. -/
theorem runSession_length_all_ok (rag : PsychologyRAG) (engine : Engine)
    (model_name : String) (temperature : Rat) (top_k : Int)
    (prompts : List String)
    (h : ∀ p ∈ prompts, queryOk rag engine p model_name temperature top_k = true) :
    ∀ history : List ChatTurn,
      (runSession rag engine model_name temperature top_k prompts history).length =
        history.length + 2 * prompts.length := by
  induction prompts with
  | nil => intro history; simp [runSession]
  | cons p ps ih =>
      intro history
      have hp := h p (List.mem_cons_self p ps)
      have hps : ∀ q ∈ ps, queryOk rag engine q model_name temperature top_k = true :=
        fun q hq => h q (List.mem_cons_of_mem p hq)
      simp only [runSession]
      rw [ih hps,
        handleChatInput_ok_length rag engine history p model_name temperature top_k hp]
      simp [List.length_cons]
      ring

/-- C3: from an empty history, N all-successful submissions leave the chat
history at length exactly 2N; a failed submission appends exactly the user
turn and no assistant turn. -/
theorem chat_history_length (rag : PsychologyRAG) (engine : Engine)
    (model_name : String) (temperature : Rat) (top_k : Int) :
    (∀ prompts : List String,
        (∀ p ∈ prompts, queryOk rag engine p model_name temperature top_k = true) →
        (runSession rag engine model_name temperature top_k prompts []).length =
          2 * prompts.length) ∧
    (∀ (history : List ChatTurn) (p : String),
        queryOk rag engine p model_name temperature top_k = false →
        (handleChatInput rag engine history p model_name temperature top_k).1 =
          history ++ [{ role := "user", content := p, sources := none }]) := by
  constructor
  · intro prompts h
    simpa using
      runSession_length_all_ok rag engine model_name temperature top_k prompts h []
  · intro history p h
    unfold queryOk at h
    unfold handleChatInput
    cases hq : (rag.query engine p model_name temperature top_k true).1 with
    | error e => simp [hq]
    | ok r => rw [hq] at h; simp at h

/-- Witness for C3: two successful submissions give history length 4; a
submission against an unloaded manager appends only the user turn. -/
theorem chat_history_length_witness :
    (runSession ragEx externalQueryEngine "gpt-4" 0 3 ["alpha", "beta"] []).length =
      2 * (["alpha", "beta"] : List String).length ∧
    (handleChatInput (PsychologyRAG.init "./storage" "./psych_pdfs")
        externalQueryEngine [] "q" "gpt-4" 0 3).1 =
      [] ++ [{ role := "user", content := "q", sources := none }] :=
  ⟨(chat_history_length ragEx externalQueryEngine "gpt-4" 0 3).1 ["alpha", "beta"]
      (by decide),
   (chat_history_length (PsychologyRAG.init "./storage" "./psych_pdfs")
      externalQueryEngine "gpt-4" 0 3).2 [] "q" rfl⟩

/-- C6: a streaming query against a collaborator that supports streaming is
marked as streaming, and the handler records as the assistant turn's content
exactly the in-order concatenation of the exposed fragments, with the
collected sources attached. -/
theorem query_streaming_concat (rag : PsychologyRAG) (idx : Index) (engine : Engine)
    (history : List ChatTurn) (prompt model_name : String) (temperature : Rat)
    (top_k : Int) (resp : Response) (frags : List String)
    (hidx : rag.index = some idx)
    (heng : engine idx ⟨⟨model_name, temperature⟩, top_k, true⟩ prompt = .ok resp)
    (hgen : resp.response_gen = some frags) :
    (rag.query engine prompt model_name temperature top_k true).1 =
      .ok { response := resp, streaming := true } ∧
    (handleChatInput rag engine history prompt model_name temperature top_k).1 =
      history ++ [{ role := "user", content := prompt, sources := none },
                  { role := "assistant", content := concatFragments frags,
                    sources := some (collectSources resp) }] := by
  have hq : (rag.query engine prompt model_name temperature top_k true).1 =
      .ok { response := resp, streaming := true } := by
    simp [PsychologyRAG.query, hidx, heng, hgen]
  refine ⟨hq, ?_⟩
  unfold handleChatInput
  rw [hq]
  simp [hgen]

/-- Witness for C6: a loaded manager queried through a streaming stub. -/
theorem query_streaming_concat_witness :
    (ragEx.query stubStreamEngine "q" "gpt-4" 0 3 true).1 =
      .ok { response := respStub, streaming := true } ∧
    (handleChatInput ragEx stubStreamEngine [] "q" "gpt-4" 0 3).1 =
      [] ++ [{ role := "user", content := "q", sources := none },
             { role := "assistant", content := concatFragments ["Hel", "lo"],
               sources := some (collectSources respStub) }] :=
  query_streaming_concat ragEx idxEx stubStreamEngine [] "q" "gpt-4" 0 3 respStub
    ["Hel", "lo"] rfl rfl rfl

/-- C7: with a loaded index, the number of source records in a successful
query result is at most the supplied `top_k`. -/
theorem query_source_count_le_topk (rag : PsychologyRAG) (idx : Index)
    (question model_name : String) (temperature : Rat) (top_k : Int)
    (streaming : Bool) (res : QueryResult)
    (hidx : rag.index = some idx) (hk : 0 ≤ top_k)
    (hres : (rag.query externalQueryEngine question model_name temperature top_k
        streaming).1 = .ok res) :
    (res.response.source_nodes.length : Int) ≤ top_k := by
  have hsrc : res.response.source_nodes = retrieveNodes idx question top_k := by
    simp [PsychologyRAG.query, hidx, externalQueryEngine] at hres
    subst hres
    rfl
  have h1 := retrieveNodes_length_le idx question top_k
  rw [hsrc]
  omega

/-- Witness for C7: a two-document index queried with `top_k = 1`. -/
theorem query_source_count_le_topk_witness :
    (resEx.response.source_nodes.length : Int) ≤ 1 :=
  query_source_count_le_topk ragEx idxEx "alpha" "gpt-4" 0 1 false resEx rfl
    (by decide) rfl

/-- C8: with a loaded index, the engine is invoked exactly once, configured
with exactly the supplied model identifier and temperature (and the supplied
`top_k` and streaming flag), whatever the collaborator then does. -/
theorem query_passes_model_temp (rag : PsychologyRAG) (idx : Index) (engine : Engine)
    (question model_name : String) (temperature : Rat) (top_k : Int)
    (streaming : Bool) (hidx : rag.index = some idx) :
    (rag.query engine question model_name temperature top_k streaming).2 =
      [{ llm := { model := model_name, temperature := temperature },
         similarity_top_k := top_k, streaming := streaming }] := by
  simp only [PsychologyRAG.query, hidx]
  cases h : engine idx ⟨⟨model_name, temperature⟩, top_k, streaming⟩ question <;>
    simp [h]

/-- Witness for C8 at a concrete loaded manager. -/
theorem query_passes_model_temp_witness :
    (ragEx.query externalQueryEngine "q" "gpt-4" 0 3 true).2 =
      [{ llm := { model := "gpt-4", temperature := 0 },
         similarity_top_k := 3, streaming := true }] :=
  query_passes_model_temp ragEx idxEx externalQueryEngine "q" "gpt-4" 0 3 true rfl

/-- C10: `query` performs no range validation: for every temperature and every
`top_k` (in range or not), a query with a loaded index raises nothing and the
single engine invocation carries the given values unchanged. -/
theorem query_no_range_check (rag : PsychologyRAG) (idx : Index)
    (question model_name : String) (temperature : Rat) (top_k : Int)
    (streaming : Bool) (hidx : rag.index = some idx) :
    raisedException (rag.query externalQueryEngine question model_name temperature
        top_k streaming).1 = false ∧
    (rag.query externalQueryEngine question model_name temperature top_k
        streaming).2 =
      [{ llm := { model := model_name, temperature := temperature },
         similarity_top_k := top_k, streaming := streaming }] := by
  constructor
  · simp [PsychologyRAG.query, hidx, externalQueryEngine, raisedException]
  · simp [PsychologyRAG.query, hidx, externalQueryEngine]

/-- Witness for C10 with out-of-range values: temperature 5 and `top_k` −2. -/
theorem query_no_range_check_witness :
    raisedException (ragEx.query externalQueryEngine "q" "davinci" 5 (-2) true).1 =
      false ∧
    (ragEx.query externalQueryEngine "q" "davinci" 5 (-2) true).2 =
      [{ llm := { model := "davinci", temperature := 5 },
         similarity_top_k := -2, streaming := true }] :=
  query_no_range_check ragEx idxEx "q" "davinci" 5 (-2) true rfl

end Walter
